import Mathlib

/-!
Shallow embedding of the prosper-challenge Healthie automation code
(src/utils/date_helpers.py, src/utils/get_verification_code.py,
src/integration/healthie.py, src/adapters/pipecat/healthie.py) together
with theorems settling the specification claims about it.

Conventions:
* Python `datetime` values are modelled by `PyDateTime` (year/month/day/
  hour/minute; the fields produced by the formats the code parses).
* Python exceptions are modelled with `Except`; `ValueError` and all other
  exception classes are distinguished by `PyErr` where the distinction
  matters (the adapter layer catches `ValueError` separately).
* Browser/UI interactions are modelled by environment records that say,
  for each UI step the code performs, whether that step raises and what
  data the page shows; the functions under test are translated as the
  deterministic control flow of the source over those environments.
* Character classes (`\d`, `\w`, `\s`) are modelled over the ASCII range,
  which covers every string the claims and the code's own literals use.
-/

/-! ### Small string/character preliminaries -/

def digitChar (n : Nat) : Char := Char.ofNat (48 + n)

def digitVal (c : Char) : Nat := c.toNat - 48

/-- Zero-padded two-digit rendering (strftime `%m` / `%d` style), for `n < 100`. -/
def pad2 (n : Nat) : String := String.mk [digitChar (n / 10 % 10), digitChar (n % 10)]

/-- Zero-padded four-digit rendering (strftime `%Y` style), for `n ≤ 9999`. -/
def pad4 (n : Nat) : String :=
  String.mk [digitChar (n / 1000 % 10), digitChar (n / 100 % 10),
             digitChar (n / 10 % 10), digitChar (n % 10)]

/-- ASCII whitespace, the `\s` class / `str.strip` default as used by the code. -/
def isSpaceChar (c : Char) : Bool :=
  c = ' ' || c = '\t' || c = '\n' || c = '\r' || c = '\x0b' || c = '\x0c'

/-- Python `str.strip()`: drop leading and trailing whitespace. -/
def pyStrip (cs : List Char) : List Char :=
  ((cs.dropWhile isSpaceChar).reverse.dropWhile isSpaceChar).reverse

def pyStripS (s : String) : String := String.mk (pyStrip s.data)

/-! ### Python datetime model -/

/-- The fields of a Python `datetime` that the parsed formats populate
(`%S`/microseconds are always zero for the formats the code uses). -/
structure PyDateTime where
  year : Nat
  month : Nat
  day : Nat
  hour : Nat
  minute : Nat
deriving DecidableEq, Repr

/-- Python `datetime` `<`: lexicographic on (year, month, day, hour, minute). -/
def PyDateTime.ltb (a b : PyDateTime) : Bool :=
  if a.year ≠ b.year then decide (a.year < b.year)
  else if a.month ≠ b.month then decide (a.month < b.month)
  else if a.day ≠ b.day then decide (a.day < b.day)
  else if a.hour ≠ b.hour then decide (a.hour < b.hour)
  else decide (a.minute < b.minute)

def isLeapYear (y : Nat) : Bool :=
  y % 4 = 0 && (y % 100 ≠ 0 || y % 400 = 0)

/-- Day count validated by the Python `datetime` constructor. -/
def daysInMonth (y m : Nat) : Nat :=
  if m = 2 then (if isLeapYear y then 29 else 28)
  else if m = 4 || m = 6 || m = 9 || m = 11 then 30
  else 31

/-! ### src/utils/date_helpers.py -/

/-- `day_with_suffix` from `format_target_date` (src/utils/date_helpers.py:25). -/
def day_with_suffix (day : Nat) : String :=
  if 11 ≤ day ∧ day ≤ 13 then toString day ++ "th"
  else
    let last_digit := day % 10
    if last_digit = 1 then toString day ++ "st"
    else if last_digit = 2 then toString day ++ "nd"
    else if last_digit = 3 then toString day ++ "rd"
    else toString day ++ "th"

/-- `calculate_diff_months` (src/utils/date_helpers.py:43). -/
def calculate_diff_months (now target_datetime : PyDateTime) : Int :=
  if PyDateTime.ltb target_datetime now then 0
  else
    let diff_years : Int := (target_datetime.year : Int) - (now.year : Int)
    let diff_months : Int := (target_datetime.month : Int) - (now.month : Int)
    diff_years * 12 + diff_months

/-- The ordinal-suffix table exactly as the claim words it: "st" when the last
digit is 1, "nd" when 2, "rd" when 3, "th" otherwise, except 11–13 always "th". -/
def ordinalSuffixSpec (day : Nat) : String :=
  if 11 ≤ day ∧ day ≤ 13 then "th"
  else if day % 10 = 1 then "st"
  else if day % 10 = 2 then "nd"
  else if day % 10 = 3 then "rd"
  else "th"

/-- C9: the ordinal-day formatter appends "st"/"nd"/"rd" by last digit with the
11–13 exception, and in particular 1 ↦ "1st", 12 ↦ "12th", 23 ↦ "23rd". -/
theorem C9_day_with_suffix :
    (∀ day : Nat, day_with_suffix day = toString day ++ ordinalSuffixSpec day) ∧
    day_with_suffix 1 = "1st" ∧ day_with_suffix 12 = "12th" ∧
    day_with_suffix 23 = "23rd" ∧ day_with_suffix 11 = "11th" ∧
    day_with_suffix 13 = "13th" := by
  refine ⟨fun day => ?_, by decide, by decide, by decide, by decide, by decide⟩
  simp only [day_with_suffix, ordinalSuffixSpec]
  split_ifs <;> rfl

/-- C5: `calculate_diff_months` returns 0 when the target precedes `now`
(datetime order), and `(Δyear)*12 + Δmonth` otherwise. -/
theorem C5_calculate_diff_months (now target : PyDateTime) :
    (PyDateTime.ltb target now = true → calculate_diff_months now target = 0) ∧
    (PyDateTime.ltb target now = false →
      calculate_diff_months now target =
        ((target.year : Int) - (now.year : Int)) * 12 +
          ((target.month : Int) - (now.month : Int))) := by
  constructor <;> intro h <;> simp [calculate_diff_months, h]

/-- C5 witness: now = 2026-01-15, target = 2026-03-01 is not in the past and the
formula gives 2; a target strictly before now gives 0. -/
theorem C5_calculate_diff_months_witness :
    PyDateTime.ltb ⟨2026, 3, 1, 0, 0⟩ ⟨2026, 1, 15, 0, 0⟩ = false ∧
    calculate_diff_months ⟨2026, 1, 15, 0, 0⟩ ⟨2026, 3, 1, 0, 0⟩ = 2 ∧
    PyDateTime.ltb ⟨2025, 12, 31, 23, 59⟩ ⟨2026, 1, 15, 0, 0⟩ = true ∧
    calculate_diff_months ⟨2026, 1, 15, 0, 0⟩ ⟨2025, 12, 31, 23, 59⟩ = 0 := by
  refine ⟨by decide, ?_, by decide, ?_⟩
  · exact ((C5_calculate_diff_months ⟨2026, 1, 15, 0, 0⟩ ⟨2026, 3, 1, 0, 0⟩).2
      (by decide)).trans (by decide)
  · exact (C5_calculate_diff_months ⟨2026, 1, 15, 0, 0⟩ ⟨2025, 12, 31, 23, 59⟩).1
      (by decide)

/-! ### CPython `strptime` model for the formats the code uses

CPython compiles each directive to a regex: `%Y` is exactly four digits,
`%m`/`%d`/`%I` are `1[0-2]|0[1-9]|[1-9]`-style one-or-two-digit fields,
`%M` is `[0-5]\d|\d`, `%b`/`%B` are (case-insensitive) month-name
alternations, literal whitespace matches `\s+`, and the resulting fields
must consume the whole string and pass `datetime`-constructor validation. -/

def parseYear4 : List Char → Option (Nat × List Char)
  | a :: b :: c :: d :: rest =>
    if a.isDigit && b.isDigit && c.isDigit && d.isDigit then
      some (digitVal a * 1000 + digitVal b * 100 + digitVal c * 10 + digitVal d, rest)
    else none
  | _ => none

/-- One-or-two-digit numeric field: the two-digit alternative is taken when its
value passes `ok2`, otherwise a single digit passing `ok1` is taken. -/
def parseNum2or1 (ok2 ok1 : Nat → Bool) : List Char → Option (Nat × List Char)
  | a :: b :: rest =>
    if a.isDigit && b.isDigit && ok2 (digitVal a * 10 + digitVal b) then
      some (digitVal a * 10 + digitVal b, rest)
    else if a.isDigit && ok1 (digitVal a) then some (digitVal a, b :: rest)
    else none
  | [a] => if a.isDigit && ok1 (digitVal a) then some (digitVal a, []) else none
  | [] => none

def parseMonthNum : List Char → Option (Nat × List Char) :=
  parseNum2or1 (fun v => decide (1 ≤ v ∧ v ≤ 12)) (fun v => decide (1 ≤ v))

def parseDayNum : List Char → Option (Nat × List Char) :=
  parseNum2or1 (fun v => decide (1 ≤ v ∧ v ≤ 31)) (fun v => decide (1 ≤ v))

def parseHour12 : List Char → Option (Nat × List Char) :=
  parseNum2or1 (fun v => decide (1 ≤ v ∧ v ≤ 12)) (fun v => decide (1 ≤ v))

def parseMinute : List Char → Option (Nat × List Char) :=
  parseNum2or1 (fun v => decide (v ≤ 59)) (fun _ => true)

def expectChar (c : Char) : List Char → Option (List Char)
  | x :: rest => if x = c then some rest else none
  | [] => none

/-- Literal whitespace in a strptime format: `\s+`. -/
def skipWs1 : List Char → Option (List Char)
  | c :: rest => if isSpaceChar c then some (rest.dropWhile isSpaceChar) else none
  | [] => none

/-- `%p`, case-insensitive; `true` means PM. -/
def parseAmPm : List Char → Option (Bool × List Char)
  | a :: m :: rest =>
    if a.toLower = 'a' && m.toLower = 'm' then some (false, rest)
    else if a.toLower = 'p' && m.toLower = 'm' then some (true, rest)
    else none
  | _ => none

/-- Case-insensitive fixed-string match (the stored pattern is lowercase). -/
def stripCI : List Char → List Char → Option (List Char)
  | [], cs => some cs
  | p :: ps, c :: cs => if c.toLower = p then stripCI ps cs else none
  | _ :: _, [] => none

def abbrevMonthTable : List (List Char × Nat) :=
  [(['j','a','n'], 1), (['f','e','b'], 2), (['m','a','r'], 3), (['a','p','r'], 4),
   (['m','a','y'], 5), (['j','u','n'], 6), (['j','u','l'], 7), (['a','u','g'], 8),
   (['s','e','p'], 9), (['o','c','t'], 10), (['n','o','v'], 11), (['d','e','c'], 12)]

def fullMonthTable : List (List Char × Nat) :=
  [(['j','a','n','u','a','r','y'], 1), (['f','e','b','r','u','a','r','y'], 2),
   (['m','a','r','c','h'], 3), (['a','p','r','i','l'], 4), (['m','a','y'], 5),
   (['j','u','n','e'], 6), (['j','u','l','y'], 7), (['a','u','g','u','s','t'], 8),
   (['s','e','p','t','e','m','b','e','r'], 9), (['o','c','t','o','b','e','r'], 10),
   (['n','o','v','e','m','b','e','r'], 11), (['d','e','c','e','m','b','e','r'], 12)]

def matchMonthName : List (List Char × Nat) → List Char → Option (Nat × List Char)
  | [], _ => none
  | (name, v) :: tbl, cs =>
    match stripCI name cs with
    | some rest => some (v, rest)
    | none => matchMonthName tbl cs

/-- The `datetime` constructor validation applied by strptime to the parsed
fields (MINYEAR/MAXYEAR and day-of-month range). -/
def mkValidDate (y m d : Nat) : Option PyDateTime :=
  if 1 ≤ y ∧ y ≤ 9999 ∧ 1 ≤ m ∧ m ≤ 12 ∧ 1 ≤ d ∧ d ≤ daysInMonth y m then
    some ⟨y, m, d, 0, 0⟩
  else none

/-- `strptime(s, "%Y-%m-%d")`. -/
def strptime_Ymd (cs : List Char) : Option PyDateTime := do
  let (y, r1) ← parseYear4 cs
  let r2 ← expectChar '-' r1
  let (m, r3) ← parseMonthNum r2
  let r4 ← expectChar '-' r3
  let (d, r5) ← parseDayNum r4
  if r5 = [] then mkValidDate y m d else none

/-- `strptime(s, "<month-name> %d, %Y")` with the given month-name table. -/
def strptime_nameDayYear (tbl : List (List Char × Nat)) (cs : List Char) : Option PyDateTime := do
  let (m, r1) ← matchMonthName tbl cs
  let r2 ← skipWs1 r1
  let (d, r3) ← parseDayNum r2
  let r4 ← expectChar ',' r3
  let r5 ← skipWs1 r4
  let (y, r6) ← parseYear4 r5
  if r6 = [] then mkValidDate y m d else none

/-- `strptime(s, "%b %d, %Y")`. -/
def strptime_bdY : List Char → Option PyDateTime := strptime_nameDayYear abbrevMonthTable

/-- `strptime(s, "%B %d, %Y")`. -/
def strptime_BdY : List Char → Option PyDateTime := strptime_nameDayYear fullMonthTable

/-- `strptime(s, "%Y-%m-%d %I:%M %p")`. -/
def strptime_YmdIMp (cs : List Char) : Option PyDateTime := do
  let (y, r1) ← parseYear4 cs
  let r2 ← expectChar '-' r1
  let (m, r3) ← parseMonthNum r2
  let r4 ← expectChar '-' r3
  let (d, r5) ← parseDayNum r4
  let r6 ← skipWs1 r5
  let (h12, r7) ← parseHour12 r6
  let r8 ← expectChar ':' r7
  let (mins, r9) ← parseMinute r8
  let r10 ← skipWs1 r9
  let (pm, r11) ← parseAmPm r10
  if r11 = [] then
    match mkValidDate y m d with
    | none => none
    | some dt =>
        some { dt with
               hour := if pm then (if h12 = 12 then 12 else h12 + 12)
                       else (if h12 = 12 then 0 else h12),
               minute := mins }
  else none

/-- `convert_to_datetime` (src/utils/date_helpers.py:4):
`strptime(f"{date} {time}", "%Y-%m-%d %I:%M %p")`, `None` models `ValueError`. -/
def convert_to_datetime (date time : String) : Option PyDateTime :=
  strptime_YmdIMp (date ++ " " ++ time).data

/-- `_parse_flexible_date` (src/adapters/pipecat/healthie.py:21): strip the
input, then try `%Y-%m-%d`, `%b %d, %Y`, `%B %d, %Y` in order. -/
def _parse_flexible_date (value : String) : Option PyDateTime :=
  let trimmed := pyStrip value.data
  match strptime_Ymd trimmed with
  | some dt => some dt
  | none =>
    match strptime_bdY trimmed with
    | some dt => some dt
    | none => strptime_BdY trimmed

def pad2C (n : Nat) : List Char := [digitChar (n / 10 % 10), digitChar (n % 10)]

def pad4C (n : Nat) : List Char :=
  [digitChar (n / 1000 % 10), digitChar (n / 100 % 10),
   digitChar (n / 10 % 10), digitChar (n % 10)]

/-- strftime `"%Y-%m-%d"` of a date, as a character list. -/
def isoChars (y m d : Nat) : List Char := pad4C y ++ '-' :: (pad2C m ++ '-' :: pad2C d)

/-- The canonical `YYYY-MM-DD` rendering (`strftime("%Y-%m-%d")`). -/
def renderISO (y m d : Nat) : String := String.mk (isoChars y m d)

/-- `PatientAppointmentRequest.normalized_dob`
(src/adapters/pipecat/healthie.py:57). -/
def normalized_dob (value : String) : Option String :=
  (_parse_flexible_date value).map fun dt => renderISO dt.year dt.month dt.day

def monthAbbrev : Nat → List Char
  | 1 => ['J','a','n'] | 2 => ['F','e','b'] | 3 => ['M','a','r'] | 4 => ['A','p','r']
  | 5 => ['M','a','y'] | 6 => ['J','u','n'] | 7 => ['J','u','l'] | 8 => ['A','u','g']
  | 9 => ['S','e','p'] | 10 => ['O','c','t'] | 11 => ['N','o','v'] | 12 => ['D','e','c']
  | _ => []

def monthFull : Nat → List Char
  | 1 => ['J','a','n','u','a','r','y'] | 2 => ['F','e','b','r','u','a','r','y']
  | 3 => ['M','a','r','c','h'] | 4 => ['A','p','r','i','l'] | 5 => ['M','a','y']
  | 6 => ['J','u','n','e'] | 7 => ['J','u','l','y'] | 8 => ['A','u','g','u','s','t']
  | 9 => ['S','e','p','t','e','m','b','e','r'] | 10 => ['O','c','t','o','b','e','r']
  | 11 => ['N','o','v','e','m','b','e','r'] | 12 => ['D','e','c','e','m','b','e','r']
  | _ => []

/-- The date rendered in the `Mon DD, YYYY` input format (`strftime("%b %d, %Y")`). -/
def abbrevChars (y m d : Nat) : List Char :=
  monthAbbrev m ++ ' ' :: (pad2C d ++ ',' :: ' ' :: pad4C y)

def renderMonDY (y m d : Nat) : String := String.mk (abbrevChars y m d)

/-- The date rendered in the `Month DD, YYYY` input format (`strftime("%B %d, %Y")`). -/
def fullChars (y m d : Nat) : List Char :=
  monthFull m ++ ' ' :: (pad2C d ++ ',' :: ' ' :: pad4C y)

def renderMonthDY (y m d : Nat) : String := String.mk (fullChars y m d)

/-! ### Round-trip lemmas: strptime of a strftime rendering -/

lemma digitChar_isDigit {n : Nat} (h : n < 10) : (digitChar n).isDigit = true := by
  interval_cases n <;> decide

lemma digitChar_notSpace {n : Nat} (h : n < 10) : isSpaceChar (digitChar n) = false := by
  interval_cases n <;> decide

lemma digitVal_digitChar {n : Nat} (h : n < 10) : digitVal (digitChar n) = n := by
  interval_cases n <;> decide

lemma dropWhile_eq_self_of_head (p : Char → Bool) (cs : List Char)
    (h : ∀ c, cs.head? = some c → p c = false) : cs.dropWhile p = cs := by
  cases cs with
  | nil => rfl
  | cons a t => simp [List.dropWhile_cons, h a rfl]

lemma pyStrip_eq_self (cs : List Char)
    (hhead : ∀ c, cs.head? = some c → isSpaceChar c = false)
    (hlast : ∀ c, cs.getLast? = some c → isSpaceChar c = false) :
    pyStrip cs = cs := by
  unfold pyStrip
  rw [dropWhile_eq_self_of_head _ _ hhead,
      dropWhile_eq_self_of_head _ _
        (fun c hc => hlast c (by rwa [List.head?_reverse] at hc)),
      List.reverse_reverse]

lemma parseYear4_pad4C {n : Nat} (h : n ≤ 9999) (rest : List Char) :
    parseYear4 (pad4C n ++ rest) = some (n, rest) := by
  have h3 : n / 1000 % 10 < 10 := Nat.mod_lt _ (by norm_num)
  have h2 : n / 100 % 10 < 10 := Nat.mod_lt _ (by norm_num)
  have h1 : n / 10 % 10 < 10 := Nat.mod_lt _ (by norm_num)
  have h0 : n % 10 < 10 := Nat.mod_lt _ (by norm_num)
  simp [pad4C, parseYear4, digitChar_isDigit h3, digitChar_isDigit h2,
        digitChar_isDigit h1, digitChar_isDigit h0, digitVal_digitChar h3,
        digitVal_digitChar h2, digitVal_digitChar h1, digitVal_digitChar h0]
  omega

lemma parseYear4_pad4C_nil {n : Nat} (h : n ≤ 9999) :
    parseYear4 (pad4C n) = some (n, []) := by
  have := parseYear4_pad4C h []
  rwa [List.append_nil] at this

lemma parseNum2or1_pad2C (ok2 ok1 : Nat → Bool) {n : Nat} (h : n < 100)
    (hok : ok2 n = true) (rest : List Char) :
    parseNum2or1 ok2 ok1 (pad2C n ++ rest) = some (n, rest) := by
  have h1 : n / 10 % 10 < 10 := Nat.mod_lt _ (by norm_num)
  have h0 : n % 10 < 10 := Nat.mod_lt _ (by norm_num)
  have hval : digitVal (digitChar (n / 10 % 10)) * 10 + digitVal (digitChar (n % 10)) = n := by
    rw [digitVal_digitChar h1, digitVal_digitChar h0]; omega
  simp [pad2C, parseNum2or1, digitChar_isDigit h1, digitChar_isDigit h0, hval, hok]

lemma parseMonthNum_pad2C {m : Nat} (h1 : 1 ≤ m) (h2 : m ≤ 12) (rest : List Char) :
    parseMonthNum (pad2C m ++ rest) = some (m, rest) :=
  parseNum2or1_pad2C _ _ (by omega) (by simp [h1, h2]) rest

lemma parseDayNum_pad2C {d : Nat} (h1 : 1 ≤ d) (h2 : d ≤ 31) (rest : List Char) :
    parseDayNum (pad2C d ++ rest) = some (d, rest) :=
  parseNum2or1_pad2C _ _ (by omega) (by simp [h1, h2]) rest

lemma parseDayNum_pad2C_nil {d : Nat} (h1 : 1 ≤ d) (h2 : d ≤ 31) :
    parseDayNum (pad2C d) = some (d, []) := by
  have := parseDayNum_pad2C h1 h2 []
  rwa [List.append_nil] at this

lemma daysInMonth_le (y m : Nat) : daysInMonth y m ≤ 31 := by
  unfold daysInMonth
  split_ifs <;> omega

lemma mkValidDate_eq {y m d : Nat} (hy1 : 1 ≤ y) (hy : y ≤ 9999) (hm1 : 1 ≤ m)
    (hm : m ≤ 12) (hd1 : 1 ≤ d) (hd : d ≤ daysInMonth y m) :
    mkValidDate y m d = some ⟨y, m, d, 0, 0⟩ := by
  unfold mkValidDate
  rw [if_pos ⟨hy1, hy, hm1, hm, hd1, hd⟩]

lemma expectChar_cons_self (c : Char) (rest : List Char) :
    expectChar c (c :: rest) = some rest := by
  simp [expectChar]

lemma skipWs1_cons_space (cs : List Char)
    (h : ∀ c, cs.head? = some c → isSpaceChar c = false) :
    skipWs1 (' ' :: cs) = some cs := by
  simp [skipWs1, show isSpaceChar ' ' = true from rfl,
        dropWhile_eq_self_of_head _ cs h]

lemma nospace_head_pad2C (n : Nat) (X : List Char) :
    ∀ c, (pad2C n ++ X).head? = some c → isSpaceChar c = false := by
  intro c hc
  simp [pad2C] at hc
  subst hc
  exact digitChar_notSpace (Nat.mod_lt _ (by norm_num))

lemma nospace_head_pad4C (n : Nat) :
    ∀ c, (pad4C n).head? = some c → isSpaceChar c = false := by
  intro c hc
  simp [pad4C] at hc
  subst hc
  exact digitChar_notSpace (Nat.mod_lt _ (by norm_num))

lemma strptime_Ymd_iso {y m d : Nat} (hy1 : 1 ≤ y) (hy : y ≤ 9999) (hm1 : 1 ≤ m)
    (hm : m ≤ 12) (hd1 : 1 ≤ d) (hd : d ≤ daysInMonth y m) :
    strptime_Ymd (isoChars y m d) = some ⟨y, m, d, 0, 0⟩ := by
  have hd31 : d ≤ 31 := le_trans hd (daysInMonth_le y m)
  simp [strptime_Ymd, isoChars, parseYear4_pad4C hy, expectChar_cons_self,
        parseMonthNum_pad2C hm1 hm, parseDayNum_pad2C_nil hd1 hd31,
        mkValidDate_eq hy1 hy hm1 hm hd1 hd]

lemma strptime_nameDayYear_of_matched (tbl : List (List Char × Nat)) (cs : List Char)
    {m y d : Nat}
    (hmatch : matchMonthName tbl cs = some (m, ' ' :: (pad2C d ++ ',' :: ' ' :: pad4C y)))
    (hy1 : 1 ≤ y) (hy : y ≤ 9999) (hm1 : 1 ≤ m) (hm : m ≤ 12) (hd1 : 1 ≤ d)
    (hd : d ≤ daysInMonth y m) :
    strptime_nameDayYear tbl cs = some ⟨y, m, d, 0, 0⟩ := by
  have hd31 : d ≤ 31 := le_trans hd (daysInMonth_le y m)
  simp [strptime_nameDayYear, hmatch,
        skipWs1_cons_space _ (nospace_head_pad2C d _),
        parseDayNum_pad2C hd1 hd31, expectChar_cons_self,
        skipWs1_cons_space _ (nospace_head_pad4C y),
        parseYear4_pad4C_nil hy,
        mkValidDate_eq hy1 hy hm1 hm hd1 hd]

lemma parseYear4_nondigit_head {c : Char} (h : c.isDigit = false) (cs : List Char) :
    parseYear4 (c :: cs) = none := by
  rcases cs with _ | ⟨b, _ | ⟨c2, _ | ⟨d2, r⟩⟩⟩ <;> simp [parseYear4, h]

lemma strptime_Ymd_none_of_head {cs : List Char} {c : Char}
    (hhead : cs.head? = some c) (h : c.isDigit = false) :
    strptime_Ymd cs = none := by
  rcases cs with _ | ⟨a, t⟩
  · simp at hhead
  · rw [List.head?_cons, Option.some.injEq] at hhead
    subst hhead
    simp [strptime_Ymd, parseYear4_nondigit_head h]

lemma getLast?_pad2C (n : Nat) : (pad2C n).getLast? = some (digitChar (n % 10)) := rfl

lemma getLast?_pad4C (n : Nat) : (pad4C n).getLast? = some (digitChar (n % 10)) := rfl

lemma getLast?_isoChars (y m d : Nat) :
    (isoChars y m d).getLast? = some (digitChar (d % 10)) := by
  have h : isoChars y m d = (pad4C y ++ '-' :: pad2C m ++ ['-']) ++ pad2C d := by
    simp [isoChars]
  rw [h, List.getLast?_append, getLast?_pad2C]
  rfl

lemma getLast?_abbrevChars (y m d : Nat) :
    (abbrevChars y m d).getLast? = some (digitChar (y % 10)) := by
  have h : abbrevChars y m d = (monthAbbrev m ++ ' ' :: pad2C d ++ [',', ' ']) ++ pad4C y := by
    simp [abbrevChars]
  rw [h, List.getLast?_append, getLast?_pad4C]
  rfl

lemma getLast?_fullChars (y m d : Nat) :
    (fullChars y m d).getLast? = some (digitChar (y % 10)) := by
  have h : fullChars y m d = (monthFull m ++ ' ' :: pad2C d ++ [',', ' ']) ++ pad4C y := by
    simp [fullChars]
  rw [h, List.getLast?_append, getLast?_pad4C]
  rfl

lemma pyStrip_isoChars (y m d : Nat) : pyStrip (isoChars y m d) = isoChars y m d := by
  apply pyStrip_eq_self
  · intro c hc
    have : (isoChars y m d).head? = some (digitChar (y / 1000 % 10)) := by
      simp [isoChars, pad4C]
    rw [this, Option.some.injEq] at hc
    subst hc
    exact digitChar_notSpace (Nat.mod_lt _ (by norm_num))
  · intro c hc
    rw [getLast?_isoChars, Option.some.injEq] at hc
    subst hc
    exact digitChar_notSpace (Nat.mod_lt _ (by norm_num))

lemma monthAbbrev_head_notSpace {m : Nat} (h1 : 1 ≤ m) (h2 : m ≤ 12) (X : List Char) :
    ∀ c, (monthAbbrev m ++ X).head? = some c → isSpaceChar c = false := by
  interval_cases m <;>
    (intro c hc
     simp [monthAbbrev] at hc
     subst hc
     decide)

lemma monthFull_head_notSpace {m : Nat} (h1 : 1 ≤ m) (h2 : m ≤ 12) (X : List Char) :
    ∀ c, (monthFull m ++ X).head? = some c → isSpaceChar c = false := by
  interval_cases m <;>
    (intro c hc
     simp [monthFull] at hc
     subst hc
     decide)

lemma pyStrip_abbrevChars {y m d : Nat} (h1 : 1 ≤ m) (h2 : m ≤ 12) :
    pyStrip (abbrevChars y m d) = abbrevChars y m d := by
  apply pyStrip_eq_self
  · exact monthAbbrev_head_notSpace h1 h2 _
  · intro c hc
    rw [getLast?_abbrevChars, Option.some.injEq] at hc
    subst hc
    exact digitChar_notSpace (Nat.mod_lt _ (by norm_num))

lemma pyStrip_fullChars {y m d : Nat} (h1 : 1 ≤ m) (h2 : m ≤ 12) :
    pyStrip (fullChars y m d) = fullChars y m d := by
  apply pyStrip_eq_self
  · exact monthFull_head_notSpace h1 h2 _
  · intro c hc
    rw [getLast?_fullChars, Option.some.injEq] at hc
    subst hc
    exact digitChar_notSpace (Nat.mod_lt _ (by norm_num))

lemma matchAbbrev_render {m : Nat} (h1 : 1 ≤ m) (h2 : m ≤ 12) (rest : List Char) :
    matchMonthName abbrevMonthTable (monthAbbrev m ++ rest) = some (m, rest) := by
  interval_cases m <;> rfl

lemma abbrevChars_head (y d : Nat) {m : Nat} (h1 : 1 ≤ m) (h2 : m ≤ 12) :
    ∃ c, (abbrevChars y m d).head? = some c ∧ c.isDigit = false := by
  interval_cases m <;> exact ⟨_, rfl, rfl⟩

lemma fullChars_head (y d : Nat) {m : Nat} (h1 : 1 ≤ m) (h2 : m ≤ 12) :
    ∃ c, (fullChars y m d).head? = some c ∧ c.isDigit = false := by
  interval_cases m <;> exact ⟨_, rfl, rfl⟩

lemma flexible_iso {y m d : Nat} (hy1 : 1 ≤ y) (hy : y ≤ 9999) (hm1 : 1 ≤ m)
    (hm : m ≤ 12) (hd1 : 1 ≤ d) (hd : d ≤ daysInMonth y m) :
    _parse_flexible_date (renderISO y m d) = some ⟨y, m, d, 0, 0⟩ := by
  simp [_parse_flexible_date, renderISO, pyStrip_isoChars,
        strptime_Ymd_iso hy1 hy hm1 hm hd1 hd]

lemma flexible_abbrev {y m d : Nat} (hy1 : 1 ≤ y) (hy : y ≤ 9999) (hm1 : 1 ≤ m)
    (hm : m ≤ 12) (hd1 : 1 ≤ d) (hd : d ≤ daysInMonth y m) :
    _parse_flexible_date (renderMonDY y m d) = some ⟨y, m, d, 0, 0⟩ := by
  obtain ⟨c, hc, hcd⟩ := abbrevChars_head y d hm1 hm
  have hiso := strptime_Ymd_none_of_head hc hcd
  have hbd : strptime_bdY (abbrevChars y m d) = some ⟨y, m, d, 0, 0⟩ :=
    strptime_nameDayYear_of_matched abbrevMonthTable _
      (matchAbbrev_render hm1 hm _) hy1 hy hm1 hm hd1 hd
  simp [_parse_flexible_date, renderMonDY, pyStrip_abbrevChars hm1 hm, hiso, hbd]

lemma flexible_full {y m d : Nat} (hy1 : 1 ≤ y) (hy : y ≤ 9999) (hm1 : 1 ≤ m)
    (hm : m ≤ 12) (hd1 : 1 ≤ d) (hd : d ≤ daysInMonth y m) :
    _parse_flexible_date (renderMonthDY y m d) = some ⟨y, m, d, 0, 0⟩ := by
  obtain ⟨c, hc, hcd⟩ := fullChars_head y d hm1 hm
  have hiso := strptime_Ymd_none_of_head hc hcd
  interval_cases m
  · have hbd : strptime_bdY (fullChars y 1 d) = none := rfl
    have hBd : strptime_BdY (fullChars y 1 d) = some ⟨y, 1, d, 0, 0⟩ :=
      strptime_nameDayYear_of_matched fullMonthTable _ rfl hy1 hy (by norm_num) (by norm_num) hd1 hd
    simp [_parse_flexible_date, renderMonthDY, pyStrip_fullChars hm1 hm, hiso, hbd, hBd]
  · have hbd : strptime_bdY (fullChars y 2 d) = none := rfl
    have hBd : strptime_BdY (fullChars y 2 d) = some ⟨y, 2, d, 0, 0⟩ :=
      strptime_nameDayYear_of_matched fullMonthTable _ rfl hy1 hy (by norm_num) (by norm_num) hd1 hd
    simp [_parse_flexible_date, renderMonthDY, pyStrip_fullChars hm1 hm, hiso, hbd, hBd]
  · have hbd : strptime_bdY (fullChars y 3 d) = none := rfl
    have hBd : strptime_BdY (fullChars y 3 d) = some ⟨y, 3, d, 0, 0⟩ :=
      strptime_nameDayYear_of_matched fullMonthTable _ rfl hy1 hy (by norm_num) (by norm_num) hd1 hd
    simp [_parse_flexible_date, renderMonthDY, pyStrip_fullChars hm1 hm, hiso, hbd, hBd]
  · have hbd : strptime_bdY (fullChars y 4 d) = none := rfl
    have hBd : strptime_BdY (fullChars y 4 d) = some ⟨y, 4, d, 0, 0⟩ :=
      strptime_nameDayYear_of_matched fullMonthTable _ rfl hy1 hy (by norm_num) (by norm_num) hd1 hd
    simp [_parse_flexible_date, renderMonthDY, pyStrip_fullChars hm1 hm, hiso, hbd, hBd]
  · have hbd : strptime_bdY (fullChars y 5 d) = some ⟨y, 5, d, 0, 0⟩ :=
      strptime_nameDayYear_of_matched abbrevMonthTable _ rfl hy1 hy (by norm_num) (by norm_num) hd1 hd
    simp [_parse_flexible_date, renderMonthDY, pyStrip_fullChars hm1 hm, hiso, hbd]
  · have hbd : strptime_bdY (fullChars y 6 d) = none := rfl
    have hBd : strptime_BdY (fullChars y 6 d) = some ⟨y, 6, d, 0, 0⟩ :=
      strptime_nameDayYear_of_matched fullMonthTable _ rfl hy1 hy (by norm_num) (by norm_num) hd1 hd
    simp [_parse_flexible_date, renderMonthDY, pyStrip_fullChars hm1 hm, hiso, hbd, hBd]
  · have hbd : strptime_bdY (fullChars y 7 d) = none := rfl
    have hBd : strptime_BdY (fullChars y 7 d) = some ⟨y, 7, d, 0, 0⟩ :=
      strptime_nameDayYear_of_matched fullMonthTable _ rfl hy1 hy (by norm_num) (by norm_num) hd1 hd
    simp [_parse_flexible_date, renderMonthDY, pyStrip_fullChars hm1 hm, hiso, hbd, hBd]
  · have hbd : strptime_bdY (fullChars y 8 d) = none := rfl
    have hBd : strptime_BdY (fullChars y 8 d) = some ⟨y, 8, d, 0, 0⟩ :=
      strptime_nameDayYear_of_matched fullMonthTable _ rfl hy1 hy (by norm_num) (by norm_num) hd1 hd
    simp [_parse_flexible_date, renderMonthDY, pyStrip_fullChars hm1 hm, hiso, hbd, hBd]
  · have hbd : strptime_bdY (fullChars y 9 d) = none := rfl
    have hBd : strptime_BdY (fullChars y 9 d) = some ⟨y, 9, d, 0, 0⟩ :=
      strptime_nameDayYear_of_matched fullMonthTable _ rfl hy1 hy (by norm_num) (by norm_num) hd1 hd
    simp [_parse_flexible_date, renderMonthDY, pyStrip_fullChars hm1 hm, hiso, hbd, hBd]
  · have hbd : strptime_bdY (fullChars y 10 d) = none := rfl
    have hBd : strptime_BdY (fullChars y 10 d) = some ⟨y, 10, d, 0, 0⟩ :=
      strptime_nameDayYear_of_matched fullMonthTable _ rfl hy1 hy (by norm_num) (by norm_num) hd1 hd
    simp [_parse_flexible_date, renderMonthDY, pyStrip_fullChars hm1 hm, hiso, hbd, hBd]
  · have hbd : strptime_bdY (fullChars y 11 d) = none := rfl
    have hBd : strptime_BdY (fullChars y 11 d) = some ⟨y, 11, d, 0, 0⟩ :=
      strptime_nameDayYear_of_matched fullMonthTable _ rfl hy1 hy (by norm_num) (by norm_num) hd1 hd
    simp [_parse_flexible_date, renderMonthDY, pyStrip_fullChars hm1 hm, hiso, hbd, hBd]
  · have hbd : strptime_bdY (fullChars y 12 d) = none := rfl
    have hBd : strptime_BdY (fullChars y 12 d) = some ⟨y, 12, d, 0, 0⟩ :=
      strptime_nameDayYear_of_matched fullMonthTable _ rfl hy1 hy (by norm_num) (by norm_num) hd1 hd
    simp [_parse_flexible_date, renderMonthDY, pyStrip_fullChars hm1 hm, hiso, hbd, hBd]

/-- C8: for every calendar date (4-digit year), normalizing its rendering in
each of the three supported date-of-birth input formats (`YYYY-MM-DD`,
`Mon DD, YYYY`, `Month DD, YYYY`) yields the same canonical `YYYY-MM-DD` string. -/
theorem C8_dob_normalization (y m d : Nat) (hy1 : 1000 ≤ y) (hy : y ≤ 9999)
    (hm1 : 1 ≤ m) (hm : m ≤ 12) (hd1 : 1 ≤ d) (hd : d ≤ daysInMonth y m) :
    normalized_dob (renderISO y m d) = some (renderISO y m d) ∧
    normalized_dob (renderMonDY y m d) = some (renderISO y m d) ∧
    normalized_dob (renderMonthDY y m d) = some (renderISO y m d) := by
  have hy1' : 1 ≤ y := by omega
  refine ⟨?_, ?_, ?_⟩
  · simp [normalized_dob, flexible_iso hy1' hy hm1 hm hd1 hd]
  · simp [normalized_dob, flexible_abbrev hy1' hy hm1 hm hd1 hd]
  · simp [normalized_dob, flexible_full hy1' hy hm1 hm hd1 hd]

/-- C8 witness: the date 1990-01-05 in all three input formats normalizes to
"1990-01-05". -/
theorem C8_dob_normalization_witness :
    renderISO 1990 1 5 = "1990-01-05" ∧
    renderMonDY 1990 1 5 = "Jan 05, 1990" ∧
    renderMonthDY 1990 1 5 = "January 05, 1990" ∧
    normalized_dob "1990-01-05" = some "1990-01-05" ∧
    normalized_dob "Jan 05, 1990" = some "1990-01-05" ∧
    normalized_dob "January 05, 1990" = some "1990-01-05" := by
  have h := C8_dob_normalization 1990 1 5 (by norm_num) (by norm_num) (by norm_num)
    (by norm_num) (by norm_num) (by decide)
  have e1 : renderISO 1990 1 5 = "1990-01-05" := by decide
  have e2 : renderMonDY 1990 1 5 = "Jan 05, 1990" := by decide
  have e3 : renderMonthDY 1990 1 5 = "January 05, 1990" := by decide
  refine ⟨e1, e2, e3, ?_, ?_, ?_⟩
  · rw [← e1]; exact h.1
  · rw [← e2, ← e1]; exact h.2.1
  · rw [← e3, ← e1]; exact h.2.2

/-! ### src/utils/get_verification_code.py

`_digits_in_text` is `re.findall(r"(?<!#)\b\d{6}\b", text)`: a match is six
digit characters whose preceding character (if any) is a non-word character
other than `#` (`\b` plus the negative lookbehind) and whose following
character (if any) is a non-word character; `findall` scans left to right and
continues after each match. `\w` is modelled over ASCII. -/

def isWordChar (c : Char) : Bool := c.isAlphanum || c = '_'

def prevOk : Option Char → Bool
  | none => true
  | some p => !isWordChar p && p != '#'

def nextOk : List Char → Bool
  | [] => true
  | c :: _ => !isWordChar c

def otpMatchAt (prev : Option Char) (cs : List Char) : Bool :=
  prevOk prev && (cs.take 6).length == 6 && (cs.take 6).all Char.isDigit &&
    nextOk (cs.drop 6)

/-- The `findall` scanner. `prev` is the character before the current
position; after emitting a six-character match the scan resumes after it,
realised structurally by skipping the five matched characters that follow
the current one (`skip`). -/
def scanOtpAux : Option Char → Nat → List Char → List (List Char)
  | _, _, [] => []
  | _, skip + 1, c :: rest => scanOtpAux (some c) skip rest
  | prev, 0, c :: rest =>
    if otpMatchAt prev (c :: rest) then
      (c :: rest).take 6 :: scanOtpAux (some c) 5 rest
    else scanOtpAux (some c) 0 rest

def scanOtp (prev : Option Char) (cs : List Char) : List (List Char) :=
  scanOtpAux prev 0 cs

/-- `_digits_in_text` (src/utils/get_verification_code.py:18). -/
def _digits_in_text (text : String) : List String :=
  (scanOtp none text.data).map String.mk

/-- One MIME leaf as the extraction loop sees it: its content type and its
decoded payload (`none` models `get_payload(decode=True)` returning `None`,
e.g. for a nested multipart container, which the loop skips). -/
structure EmailPart where
  contentType : String
  payload : Option String
deriving Repr, DecidableEq

/-- An email message: either non-multipart with one body, or multipart with
the parts `msg.walk()` yields, in order. -/
inductive EmailMsg where
  | single (body : String)
  | multi (parts : List EmailPart)
deriving Repr, DecidableEq

def skipWs0 (cs : List Char) : List Char := cs.dropWhile isSpaceChar

def expectCI (c : Char) : List Char → Option (List Char)
  | x :: rest => if x.toLower = c then some rest else none
  | [] => none

def takeDigits6 (cs : List Char) : Option (List Char × List Char) :=
  if (cs.take 6).length == 6 && (cs.take 6).all Char.isDigit then
    some (cs.take 6, cs.drop 6)
  else none

/-- Anchored match of `<h2[^>]*>\s*(\d{6})\s*</h2>` (IGNORECASE), returning
the captured group. -/
def matchH2At (cs : List Char) : Option String := do
  let r1 ← expectChar '<' cs
  let r2 ← expectCI 'h' r1
  let r3 ← expectChar '2' r2
  let r4 ← expectChar '>' (r3.dropWhile (fun c => c != '>'))
  let (ds, r5) ← takeDigits6 (skipWs0 r4)
  let r6 ← expectChar '<' (skipWs0 r5)
  let r7 ← expectChar '/' r6
  let r8 ← expectCI 'h' r7
  let r9 ← expectChar '2' r8
  let _ ← expectChar '>' r9
  pure (String.mk ds)

/-- Anchored match of `>\s*(\d{6})\s*<`, returning the captured group. -/
def matchAngleAt (cs : List Char) : Option String := do
  let r1 ← expectChar '>' cs
  let (ds, r2) ← takeDigits6 (skipWs0 r1)
  let _ ← expectChar '<' (skipWs0 r2)
  pure (String.mk ds)

/-- `re.search`: first position (left to right) where the anchored matcher
succeeds. Both patterns need at least one literal character, so the empty
suffix never matches. -/
def searchFirst (f : List Char → Option String) : List Char → Option String
  | [] => none
  | c :: rest =>
    match f (c :: rest) with
    | some s => some s
    | none => searchFirst f rest

/-- The `msg.walk()` loop body of `extract_otp_from_message`
(src/utils/get_verification_code.py:38). -/
def walkParts : List EmailPart → Option String
  | [] => none
  | ⟨_, none⟩ :: rest => walkParts rest
  | ⟨contentType, some body⟩ :: rest =>
    if contentType = "text/plain" then
      match _digits_in_text body with
      | s :: _ => some s
      | [] => walkParts rest
    else if contentType = "text/html" then
      match searchFirst matchH2At body.data with
      | some s => some s
      | none =>
        match searchFirst matchAngleAt body.data with
        | some s => some s
        | none => walkParts rest
    else walkParts rest

/-- `extract_otp_from_message` (src/utils/get_verification_code.py:30). -/
def extract_otp_from_message : EmailMsg → Option String
  | .multi parts => walkParts parts
  | .single body =>
    match _digits_in_text body with
    | s :: _ => some s
    | [] => none

/-- `get_otp` (src/utils/get_verification_code.py:75). The IMAP polling loop
is abstracted to the sequence of poll outcomes: each entry is the newest
matching unseen message fetched in that iteration (`none` when the search
returned nothing); exhausting the list is the timeout, modelled as `.error`
(`raise TimeoutError`). -/
def get_otp : List (Option EmailMsg) → Except Unit String
  | [] => .error ()
  | none :: rest => get_otp rest
  | some msg :: rest =>
    match extract_otp_from_message msg with
    | some otp => if otp ≠ "" then .ok otp else get_otp rest
    | none => get_otp rest

lemma scanOtpAux_sixdigit (cs : List Char) :
    ∀ (prev : Option Char) (skip : Nat),
      ∀ l ∈ scanOtpAux prev skip cs, l.length = 6 ∧ ∀ c ∈ l, c.isDigit = true := by
  induction cs with
  | nil => intro prev skip l hl; simp [scanOtpAux] at hl
  | cons c rest ih =>
    intro prev skip l hl
    cases skip with
    | succ n =>
      rw [scanOtpAux] at hl
      exact ih _ _ l hl
    | zero =>
      rw [scanOtpAux] at hl
      by_cases hmatch : otpMatchAt prev (c :: rest) = true
      · rw [if_pos hmatch] at hl
        rcases List.mem_cons.mp hl with h | h
        · subst h
          simp only [otpMatchAt, Bool.and_eq_true, beq_iff_eq, List.all_eq_true] at hmatch
          exact ⟨hmatch.1.1.2, hmatch.1.2⟩
        · exact ih _ _ l h
      · rw [if_neg hmatch] at hl
        exact ih _ _ l hl

lemma scanOtp_sixdigit (prev : Option Char) (cs : List Char) :
    ∀ l ∈ scanOtp prev cs, l.length = 6 ∧ ∀ c ∈ l, c.isDigit = true :=
  scanOtpAux_sixdigit cs prev 0

lemma takeDigits6_sixdigit {cs ds rest : List Char}
    (h : takeDigits6 cs = some (ds, rest)) :
    ds.length = 6 ∧ ∀ c ∈ ds, c.isDigit = true := by
  unfold takeDigits6 at h
  split_ifs at h with hcond
  · rw [Option.some.injEq, Prod.mk.injEq] at h
    obtain ⟨h1, -⟩ := h
    subst h1
    simp only [Bool.and_eq_true, beq_iff_eq, List.all_eq_true] at hcond
    exact ⟨hcond.1, hcond.2⟩

lemma matchH2At_sixdigit {cs : List Char} {s : String}
    (h : matchH2At cs = some s) :
    s.data.length = 6 ∧ ∀ c ∈ s.data, c.isDigit = true := by
  simp only [matchH2At, Option.bind_eq_bind, Option.bind_eq_some, Option.pure_def,
             Option.some.injEq] at h
  obtain ⟨r1, -, r2, -, r3, -, r4, -, ⟨ds, r5⟩, hd6, r6, -, r7, -, r8, -, r9, -, r10, -, hs⟩ := h
  subst hs
  exact takeDigits6_sixdigit hd6

lemma matchAngleAt_sixdigit {cs : List Char} {s : String}
    (h : matchAngleAt cs = some s) :
    s.data.length = 6 ∧ ∀ c ∈ s.data, c.isDigit = true := by
  simp only [matchAngleAt, Option.bind_eq_bind, Option.bind_eq_some, Option.pure_def,
             Option.some.injEq] at h
  obtain ⟨r1, -, ⟨ds, r2⟩, hd6, r3, -, hs⟩ := h
  subst hs
  exact takeDigits6_sixdigit hd6

lemma searchFirst_sixdigit (f : List Char → Option String)
    (hf : ∀ cs s, f cs = some s → s.data.length = 6 ∧ ∀ c ∈ s.data, c.isDigit = true) :
    ∀ cs s, searchFirst f cs = some s → s.data.length = 6 ∧ ∀ c ∈ s.data, c.isDigit = true := by
  intro cs
  induction cs with
  | nil => intro s h; simp [searchFirst] at h
  | cons c rest ih =>
    intro s h
    rw [searchFirst] at h
    cases hf' : f (c :: rest) with
    | some s' => rw [hf'] at h; rw [Option.some.injEq] at h; subst h; exact hf _ _ hf'
    | none => rw [hf'] at h; exact ih _ h

lemma digits_in_text_sixdigit {text : String} {s : String} {tl : List String}
    (h : _digits_in_text text = s :: tl) :
    s.data.length = 6 ∧ ∀ c ∈ s.data, c.isDigit = true := by
  unfold _digits_in_text at h
  cases hsc : scanOtp none text.data with
  | nil => rw [hsc] at h; cases h
  | cons l ls =>
    rw [hsc] at h
    rw [List.map_cons] at h
    have hl := scanOtp_sixdigit none text.data l (by rw [hsc]; exact List.mem_cons_self l ls)
    injection h with h1 h2
    subst h1
    exact hl

lemma walkParts_sixdigit (parts : List EmailPart) :
    ∀ s, walkParts parts = some s → s.data.length = 6 ∧ ∀ c ∈ s.data, c.isDigit = true := by
  induction parts with
  | nil => intro s h; simp [walkParts] at h
  | cons p rest ih =>
    intro s h
    obtain ⟨ct, pl⟩ := p
    cases pl with
    | none => rw [walkParts] at h; exact ih _ h
    | some body =>
      rw [walkParts] at h
      split_ifs at h with h1 h2
      · cases hd : _digits_in_text body with
        | nil => rw [hd] at h; exact ih _ h
        | cons x tl =>
          rw [hd] at h
          rw [Option.some.injEq] at h
          subst h
          exact digits_in_text_sixdigit hd
      · cases hh2 : searchFirst matchH2At body.data with
        | some x =>
          rw [hh2] at h
          rw [Option.some.injEq] at h
          subst h
          exact searchFirst_sixdigit _ (fun _ _ => matchH2At_sixdigit) _ _ hh2
        | none =>
          rw [hh2] at h
          cases ha : searchFirst matchAngleAt body.data with
          | some x =>
            rw [ha] at h
            rw [Option.some.injEq] at h
            subst h
            exact searchFirst_sixdigit _ (fun _ _ => matchAngleAt_sixdigit) _ _ ha
          | none => rw [ha] at h; exact ih _ h
      · exact ih _ h

/-- C10: `extract_otp_from_message` returns `None` or a string of exactly six
decimal digits, and hence any code `get_otp` returns is a six-digit numeric
string. -/
theorem C10_otp_six_digits :
    (∀ (msg : EmailMsg) (s : String), extract_otp_from_message msg = some s →
      s.data.length = 6 ∧ ∀ c ∈ s.data, c.isDigit = true) ∧
    (∀ (polls : List (Option EmailMsg)) (s : String), get_otp polls = .ok s →
      s.data.length = 6 ∧ ∀ c ∈ s.data, c.isDigit = true) := by
  have hextract : ∀ (msg : EmailMsg) (s : String), extract_otp_from_message msg = some s →
      s.data.length = 6 ∧ ∀ c ∈ s.data, c.isDigit = true := by
    intro msg s h
    cases msg with
    | multi parts => exact walkParts_sixdigit parts s h
    | single body =>
      rw [extract_otp_from_message] at h
      cases hd : _digits_in_text body with
      | nil => rw [hd] at h; cases h
      | cons x tl =>
        rw [hd] at h
        rw [Option.some.injEq] at h
        subst h
        exact digits_in_text_sixdigit hd
  refine ⟨hextract, ?_⟩
  intro polls
  induction polls with
  | nil => intro s h; cases h
  | cons poll rest ih =>
    intro s h
    cases poll with
    | none => exact ih s h
    | some msg =>
      rw [get_otp] at h
      cases he : extract_otp_from_message msg with
      | none => simp only [he] at h; exact ih s h
      | some otp =>
        simp only [he] at h
        split_ifs at h with hne
        · rw [Except.ok.injEq] at h
          subst h
          exact hextract _ _ he
        · exact ih s h

/-- C10 witness: a concrete plain-text message and a concrete poll sequence,
with the six-digit property obtained from the theorem. -/
theorem C10_otp_six_digits_witness :
    extract_otp_from_message (.single "Your sign-in code is 842913 today") = some "842913" ∧
    ("842913".data.length = 6 ∧ ∀ c ∈ "842913".data, c.isDigit = true) ∧
    get_otp [none, some (.single "code 123456 here")] = .ok "123456" ∧
    ("123456".data.length = 6 ∧ ∀ c ∈ "123456".data, c.isDigit = true) := by
  refine ⟨by rfl, ?_, by rfl, ?_⟩
  · exact C10_otp_six_digits.1 (.single "Your sign-in code is 842913 today") "842913" (by rfl)
  · exact C10_otp_six_digits.2 [none, some (.single "code 123456 here")] "123456" (by rfl)

/-! ### C6: behaviour of the plain-text extractor around word boundaries -/

def otpToken : List Char := ['8', '4', '2', '9', '1', '3']

def lastOr (pre : List Char) (prev : Option Char) : Option Char :=
  match pre.getLast? with
  | some c => some c
  | none => prev

lemma lastOr_cons (c : Char) (t : List Char) (prev : Option Char) :
    lastOr (c :: t) prev = lastOr t (some c) := by
  cases t with
  | nil => simp [lastOr]
  | cons c2 t2 =>
    rw [lastOr, lastOr, List.getLast?_cons_cons]
    cases h : (c2 :: t2).getLast? with
    | none => simp at h
    | some x => rfl

lemma otpMatchAt_head_nondigit {c : Char} (h : c.isDigit = false)
    (prev : Option Char) (rest : List Char) :
    otpMatchAt prev (c :: rest) = false := by
  have ht : (c :: rest).take 6 = c :: rest.take 5 := rfl
  simp [otpMatchAt, ht, h]

lemma otpMatchAt_false_of_prevOk {prev : Option Char} (h : prevOk prev = false)
    (cs : List Char) : otpMatchAt prev cs = false := by
  simp [otpMatchAt, h]

lemma scanOtpAux_append_nodigit (pre : List Char) (h : ∀ c ∈ pre, c.isDigit = false) :
    ∀ (prev : Option Char) (rest : List Char),
      scanOtpAux prev 0 (pre ++ rest) = scanOtpAux (lastOr pre prev) 0 rest := by
  induction pre with
  | nil => intro prev rest; simp [lastOr]
  | cons c t ih =>
    intro prev rest
    have hc : c.isDigit = false := h c (List.mem_cons_self c t)
    rw [List.cons_append, scanOtpAux,
        if_neg (by simp [otpMatchAt_head_nondigit hc]),
        ih (fun x hx => h x (List.mem_cons_of_mem c hx)) (some c) rest, lastOr_cons]

/-- C6: a plain-text body whose only digit run is the token `842913` bounded
by non-word characters extracts `"842913"`; a six-digit run immediately
preceded by `#` is never matched (here: sole candidate, extractor yields
nothing). -/
theorem C6_passcode_extraction :
    (∀ pre post : List Char,
      (∀ c ∈ pre, c.isDigit = false) →
      (∀ c, pre.getLast? = some c → isWordChar c = false ∧ c ≠ '#') →
      (∀ c, post.head? = some c → isWordChar c = false) →
      extract_otp_from_message
        (.single (String.mk (pre ++ otpToken ++ post))) = some "842913") ∧
    (∀ pre post : List Char,
      (∀ c ∈ pre, c.isDigit = false) →
      pre.getLast? = some '#' →
      (∀ c ∈ post, c.isDigit = false) →
      extract_otp_from_message
        (.single (String.mk (pre ++ otpToken ++ post))) = none) := by
  constructor
  · intro pre post hnd hlast hpost
    obtain ⟨tail, htail⟩ :
        ∃ tail, scanOtp none (pre ++ otpToken ++ post) = otpToken :: tail := by
      unfold scanOtp
      rw [List.append_assoc, scanOtpAux_append_nodigit pre hnd]
      have hcons : otpToken ++ post = '8' :: ('4' :: '2' :: '9' :: '1' :: '3' :: post) := rfl
      have hmatch : otpMatchAt (lastOr pre none)
          ('8' :: ('4' :: '2' :: '9' :: '1' :: '3' :: post)) = true := by
        have h1 : prevOk (lastOr pre none) = true := by
          cases hl : pre.getLast? with
          | none => simp [lastOr, hl, prevOk]
          | some c =>
            obtain ⟨hw, hne⟩ := hlast c hl
            simp [lastOr, hl, prevOk, hw, hne]
        have h2 : nextOk post = true := by
          cases post with
          | nil => rfl
          | cons p ps => simpa [nextOk] using hpost p rfl
        have ht : ('8' :: ('4' :: '2' :: '9' :: '1' :: '3' :: post)).take 6 = otpToken := rfl
        have h3 : (otpToken.length == 6) = true := rfl
        have h4 : otpToken.all Char.isDigit = true := rfl
        unfold otpMatchAt
        rw [ht, show ('8' :: ('4' :: '2' :: '9' :: '1' :: '3' :: post)).drop 6 = post from rfl,
            h1, h2, h3, h4]
        decide
      rw [hcons, scanOtpAux, if_pos hmatch]
      exact ⟨_, rfl⟩
    have hdig : _digits_in_text (String.mk (pre ++ otpToken ++ post)) =
        "842913" :: tail.map String.mk := by
      unfold _digits_in_text
      rw [show (String.mk (pre ++ otpToken ++ post)).data = pre ++ otpToken ++ post from rfl,
          htail, List.map_cons]
      rfl
    rw [extract_otp_from_message, hdig]
  · intro pre post hnd hhash hpostnd
    have hscan : scanOtp none (pre ++ otpToken ++ post) = [] := by
      unfold scanOtp
      rw [List.append_assoc, scanOtpAux_append_nodigit pre hnd]
      rw [show lastOr pre none = some '#' by simp [lastOr, hhash]]
      rw [show otpToken ++ post = '8' :: ('4' :: '2' :: '9' :: '1' :: '3' :: post) from rfl]
      have pHash : prevOk (some '#') = false := rfl
      have p8 : prevOk (some '8') = false := rfl
      have p4 : prevOk (some '4') = false := rfl
      have p2 : prevOk (some '2') = false := rfl
      have p9 : prevOk (some '9') = false := rfl
      have p1 : prevOk (some '1') = false := rfl
      rw [scanOtpAux, if_neg (by simp [otpMatchAt_false_of_prevOk pHash])]
      rw [scanOtpAux, if_neg (by simp [otpMatchAt_false_of_prevOk p8])]
      rw [scanOtpAux, if_neg (by simp [otpMatchAt_false_of_prevOk p4])]
      rw [scanOtpAux, if_neg (by simp [otpMatchAt_false_of_prevOk p2])]
      rw [scanOtpAux, if_neg (by simp [otpMatchAt_false_of_prevOk p9])]
      rw [scanOtpAux, if_neg (by simp [otpMatchAt_false_of_prevOk p1])]
      have := scanOtpAux_append_nodigit post hpostnd (some '3') []
      rw [List.append_nil] at this
      rw [this]
      rfl
    have hdig : _digits_in_text (String.mk (pre ++ otpToken ++ post)) = [] := by
      unfold _digits_in_text
      rw [show (String.mk (pre ++ otpToken ++ post)).data = pre ++ otpToken ++ post from rfl,
          hscan]
      rfl
    rw [extract_otp_from_message, hdig]

/-- C6 witness: concrete plain-text bodies, instantiating the theorem. -/
theorem C6_passcode_extraction_witness :
    extract_otp_from_message (.single "Your code is 842913, thanks") = some "842913" ∧
    extract_otp_from_message (.single "background color #842913 here") = none := by
  constructor
  · have h := C6_passcode_extraction.1 "Your code is ".data ", thanks".data
      (by decide)
      (by intro c hc
          rw [show ("Your code is ".data).getLast? = some ' ' from rfl,
              Option.some.injEq] at hc
          subst hc
          exact ⟨rfl, by decide⟩)
      (by intro c hc
          rw [show (", thanks".data).head? = some ',' from rfl,
              Option.some.injEq] at hc
          subst hc
          rfl)
    rwa [show String.mk ("Your code is ".data ++ otpToken ++ ", thanks".data) =
         "Your code is 842913, thanks" from rfl] at h
  · have h := C6_passcode_extraction.2 "background color #".data " here".data
      (by decide) (by rfl) (by decide)
    rwa [show String.mk ("background color #".data ++ otpToken ++ " here".data) =
         "background color #842913 here" from rfl] at h

/-! ### src/integration/healthie.py: module state and login -/

/-- Python exception classes as the adapter layer distinguishes them:
`ValueError` is caught separately by the direct actions; every other
exception class is `otherError`. -/
inductive PyErr where
  | valueError (msg : String)
  | otherError (msg : String)
deriving Repr, DecidableEq

/-- The module globals `_browser`/`_page`/`_playwright`: the number of
browser launches performed so far and the current page, identified by a
serial number (each launched browser produces a fresh page). -/
structure ModuleState where
  browserLaunches : Nat
  currentPage : Option Nat
deriving Repr, DecidableEq

deriving instance DecidableEq for Except

/-- What the environment does during one run of the login protocol. -/
structure LoginEnv where
  hasEmail : Bool
  hasPassword : Bool
  uiRaises : Bool
  continueWaitTimesOut : Bool
  continueIsVisible : Bool
  otpResult : Except Unit String
  otpFillRaises : Bool
  stillOnSignIn : Bool
deriving Repr, DecidableEq

/-- `login_to_healthie` (src/integration/healthie.py:44). The session-reuse
early return (lines 68–70) is commented out in the source, so every call
launches a new browser and runs the full sign-in protocol; the fresh page's
serial number is the pre-call launch count. Waits/fills/clicks that raise
(`uiRaises`), the 3-second wait for the continue control timing out, a
`get_otp` timeout, and the final still-on-sign-in check all propagate as
(non-`ValueError`) exceptions; missing credentials raise `ValueError`. -/
def login_to_healthie (env : LoginEnv) (s : ModuleState) :
    Except PyErr (ModuleState × Nat) :=
  if !env.hasEmail || !env.hasPassword then
    .error (.valueError
      "HEALTHIE_EMAIL and HEALTHIE_PASSWORD must be set in environment variables")
  else
    let page := s.browserLaunches
    let s' : ModuleState :=
      { browserLaunches := s.browserLaunches + 1, currentPage := some page }
    if env.uiRaises then .error (.otherError "automation failure during login")
    else if env.continueWaitTimesOut then
      .error (.otherError "Timeout waiting for passkeys-continue-to-app")
    else if env.continueIsVisible then .ok (s', page)
    else
      match env.otpResult with
      | .error _ => .error (.otherError "OTP email not received")
      | .ok _ =>
        if env.otpFillRaises then .error (.otherError "automation failure entering OTP")
        else if env.stillOnSignIn then
          .error (.otherError "Login may have failed - still on sign-in page")
        else .ok (s', page)

/-- A login environment in which the protocol succeeds on the fast path. -/
def lenvOk : LoginEnv :=
  { hasEmail := true, hasPassword := true, uiRaises := false,
    continueWaitTimesOut := false, continueIsVisible := true,
    otpResult := .ok "842913", otpFillRaises := false, stillOnSignIn := false }

/-- C2 (evidence): the code relaunches on every call. From a fresh state, a
first successful `login_to_healthie` launches browser 1 and returns page 0; a
second call launches another browser (count 2) and returns a different page,
instead of returning the same live session without a new launch. -/
theorem C2_login_not_idempotent :
    login_to_healthie lenvOk ⟨0, none⟩ = .ok (⟨1, some 0⟩, 0) ∧
    login_to_healthie lenvOk ⟨1, some 0⟩ = .ok (⟨2, some 1⟩, 1) ∧
    (⟨2, some 1⟩ : ModuleState).browserLaunches ≠ 1 ∧ (1 : Nat) ≠ 0 := by
  decide

/-! ### src/integration/healthie.py: find_patient -/

/-- The dictionary `find_patient` returns (src/integration/healthie.py:258). -/
structure PatientData where
  patient_id : String
  name : String
  email : String
  phone_number : String
  group : String
  date_of_birth : String
  current_weight : Option String
  current_height : Option String
  location : String
  timezone : String
  last_fitbit_sync : String
  client_since : String
deriving Repr, DecidableEq

/-- What the portal shows / how each UI step behaves during one
`find_patient` run, in the order the source performs the steps. -/
structure FinderEnv where
  clientsLinkRaises : Bool
  searchRaises : Bool
  noResultsVisible : Bool
  resultsTableVisible : Bool
  numUserRows : Nat
  rowClickRaises : Bool
  sectionRaises : Bool
  uniqueId : String
  clientSince : String
  dobExtracted : String
  phone : String
  group : String
  timezone : String
  location : String
  lastFitbitSync : String
  emailRaw : Option String
  extractRaises : Bool
deriving Repr, DecidableEq

/-- The `try:` body of `find_patient` (src/integration/healthie.py:160-271):
`.error ()` models an exception reaching the broad `except`; `.ok none` the
explicit `return None` paths (no-results message, results-table timeout
caught locally, zero rows); multiple rows only log a warning and proceed. -/
def find_patient_body (env : FinderEnv) (name date_of_birth : String) :
    Except Unit (Option PatientData) :=
  if env.clientsLinkRaises then .error ()
  else if env.searchRaises then .error ()
  else if env.noResultsVisible then .ok none
  else if !env.resultsTableVisible then .ok none
  else if env.numUserRows = 0 then .ok none
  else if env.rowClickRaises then .error ()
  else if env.sectionRaises then .error ()
  else if env.extractRaises then .error ()
  else
    .ok (some
      { patient_id := env.uniqueId,
        name := name,
        email := pyStripS (env.emailRaw.getD ""),
        phone_number := env.phone,
        group := env.group,
        date_of_birth := if env.dobExtracted ≠ "" then env.dobExtracted else date_of_birth,
        current_weight := none,
        current_height := none,
        location := env.location,
        timezone := env.timezone,
        last_fitbit_sync := env.lastFitbitSync,
        client_since := env.clientSince })

/-- `find_patient` (src/integration/healthie.py:132): login first (outside the
`try`, so login exceptions propagate), then the body with every body
exception caught and flattened to `None`. -/
def find_patient (lenv : LoginEnv) (fenv : FinderEnv) (s : ModuleState)
    (name date_of_birth : String) : Except PyErr (ModuleState × Option PatientData) :=
  match login_to_healthie lenv s with
  | .error e => .error e
  | .ok (s', _) =>
    match find_patient_body fenv name date_of_birth with
    | .error _ => .ok (s', none)
    | .ok r => .ok (s', r)

lemma find_patient_body_not_some_of_zero_rows (fenv : FinderEnv)
    (name dob : String) (h : fenv.numUserRows = 0) :
    find_patient_body fenv name dob = .error () ∨
      find_patient_body fenv name dob = .ok none := by
  unfold find_patient_body
  split_ifs <;> simp_all

lemma find_patient_body_not_some_of_table_timeout (fenv : FinderEnv)
    (name dob : String) (h : fenv.resultsTableVisible = false) :
    find_patient_body fenv name dob = .error () ∨
      find_patient_body fenv name dob = .ok none := by
  unfold find_patient_body
  split_ifs <;> simp_all

lemma find_patient_body_not_some_of_extract_raises (fenv : FinderEnv)
    (name dob : String) (h : fenv.extractRaises = true) :
    find_patient_body fenv name dob = .error () ∨
      find_patient_body fenv name dob = .ok none := by
  unfold find_patient_body
  split_ifs <;> simp_all

lemma find_patient_flattened (lenv : LoginEnv) (fenv : FinderEnv)
    (s : ModuleState) (name dob : String) (sp : ModuleState) (pg : Nat)
    (hlogin : login_to_healthie lenv s = .ok (sp, pg))
    (hbody : find_patient_body fenv name dob = .error () ∨
      find_patient_body fenv name dob = .ok none) :
    find_patient lenv fenv s name dob = .ok (sp, none) := by
  unfold find_patient
  rw [hlogin]
  rcases hbody with hb | hb <;> rw [hb]

/-- C3: once login has succeeded, `find_patient` never raises, and a search
with zero result rows, a results-table visibility timeout, and an unexpected
automation exception during extraction all return the same `None` outcome,
indistinguishable to the caller. -/
theorem C3_find_patient_notfound_flattening (lenv : LoginEnv) (fenv : FinderEnv)
    (s : ModuleState) (name dob : String) (sp : ModuleState) (pg : Nat)
    (hlogin : login_to_healthie lenv s = .ok (sp, pg)) :
    (∃ r, find_patient lenv fenv s name dob = .ok (sp, r)) ∧
    (fenv.numUserRows = 0 → find_patient lenv fenv s name dob = .ok (sp, none)) ∧
    (fenv.resultsTableVisible = false → find_patient lenv fenv s name dob = .ok (sp, none)) ∧
    (fenv.extractRaises = true → find_patient lenv fenv s name dob = .ok (sp, none)) := by
  refine ⟨?_, ?_, ?_, ?_⟩
  · unfold find_patient
    rw [hlogin]
    rcases hb : find_patient_body fenv name dob with e | r
    · exact ⟨none, rfl⟩
    · exact ⟨r, rfl⟩
  · intro h
    exact find_patient_flattened lenv fenv s name dob sp pg hlogin
      (find_patient_body_not_some_of_zero_rows fenv name dob h)
  · intro h
    exact find_patient_flattened lenv fenv s name dob sp pg hlogin
      (find_patient_body_not_some_of_table_timeout fenv name dob h)
  · intro h
    exact find_patient_flattened lenv fenv s name dob sp pg hlogin
      (find_patient_body_not_some_of_extract_raises fenv name dob h)

/-- C3 witness: concrete environments for the three `NotFound` scenarios. -/
theorem C3_find_patient_notfound_flattening_witness :
    login_to_healthie lenvOk ⟨0, none⟩ = .ok (⟨1, some 0⟩, 0) ∧
    find_patient lenvOk
      { clientsLinkRaises := false, searchRaises := false, noResultsVisible := false,
        resultsTableVisible := true, numUserRows := 0, rowClickRaises := false,
        sectionRaises := false, uniqueId := "", clientSince := "", dobExtracted := "",
        phone := "", group := "", timezone := "", location := "", lastFitbitSync := "",
        emailRaw := none, extractRaises := false }
      ⟨0, none⟩ "Jane Doe" "1990-01-05" = .ok (⟨1, some 0⟩, none) ∧
    find_patient lenvOk
      { clientsLinkRaises := false, searchRaises := false, noResultsVisible := false,
        resultsTableVisible := false, numUserRows := 1, rowClickRaises := false,
        sectionRaises := false, uniqueId := "", clientSince := "", dobExtracted := "",
        phone := "", group := "", timezone := "", location := "", lastFitbitSync := "",
        emailRaw := none, extractRaises := false }
      ⟨0, none⟩ "Jane Doe" "1990-01-05" = .ok (⟨1, some 0⟩, none) ∧
    find_patient lenvOk
      { clientsLinkRaises := false, searchRaises := false, noResultsVisible := false,
        resultsTableVisible := true, numUserRows := 1, rowClickRaises := false,
        sectionRaises := false, uniqueId := "", clientSince := "", dobExtracted := "",
        phone := "", group := "", timezone := "", location := "", lastFitbitSync := "",
        emailRaw := none, extractRaises := true }
      ⟨0, none⟩ "Jane Doe" "1990-01-05" = .ok (⟨1, some 0⟩, none) := by
  have hlogin : login_to_healthie lenvOk ⟨0, none⟩ = .ok (⟨1, some 0⟩, 0) := by decide
  refine ⟨hlogin, ?_, ?_, ?_⟩
  · exact (C3_find_patient_notfound_flattening lenvOk _ _ "Jane Doe" "1990-01-05"
      _ _ hlogin).2.1 (by decide)
  · exact (C3_find_patient_notfound_flattening lenvOk _ _ "Jane Doe" "1990-01-05"
      _ _ hlogin).2.2.1 (by decide)
  · exact (C3_find_patient_notfound_flattening lenvOk _ _ "Jane Doe" "1990-01-05"
      _ _ hlogin).2.2.2 (by decide)

lemma find_patient_body_dob (fenv : FinderEnv) (name dob : String)
    (rec : PatientData) (h : find_patient_body fenv name dob = .ok (some rec)) :
    rec.date_of_birth = if fenv.dobExtracted ≠ "" then fenv.dobExtracted else dob := by
  unfold find_patient_body at h
  split_ifs at h ⊢
  all_goals first
    | (rw [Except.ok.injEq, Option.some.injEq] at h; subst h; rfl)
    | (exact absurd h (by simp))

/-- C7 (amended): when `find_patient` succeeds, the record's `date_of_birth`
is the portal-extracted label when that label is non-empty, and otherwise the
caller-supplied date-of-birth string exactly as given (no normalization). -/
theorem C7_dob_fallback (lenv : LoginEnv) (fenv : FinderEnv) (s : ModuleState)
    (name dob : String) (sp : ModuleState) (rec : PatientData)
    (h : find_patient lenv fenv s name dob = .ok (sp, some rec)) :
    (fenv.dobExtracted ≠ "" → rec.date_of_birth = fenv.dobExtracted) ∧
    (fenv.dobExtracted = "" → rec.date_of_birth = dob) := by
  unfold find_patient at h
  cases hl : login_to_healthie lenv s with
  | error e => rw [hl] at h; cases h
  | ok pr =>
    obtain ⟨s', pg⟩ := pr
    rw [hl] at h
    cases hb : find_patient_body fenv name dob with
    | error e => rw [hb] at h; simp at h
    | ok r =>
      rw [hb] at h
      rw [Except.ok.injEq, Prod.mk.injEq] at h
      obtain ⟨-, h2⟩ := h
      rw [h2] at hb
      have hd := find_patient_body_dob fenv name dob rec hb
      constructor
      · intro hne; rw [hd, if_pos hne]
      · intro he; rw [hd, if_neg (by simp [he])]

/-- The finder environment of the C7 scenario: one matching row, basic info
extracted, but the portal's date-of-birth label is empty. -/
def fenvEmptyDob : FinderEnv :=
  { clientsLinkRaises := false, searchRaises := false, noResultsVisible := false,
    resultsTableVisible := true, numUserRows := 1, rowClickRaises := false,
    sectionRaises := false, uniqueId := "13632834", clientSince := "Feb 18, 2026",
    dobExtracted := "", phone := "611543543", group := "No Group",
    timezone := "America/New_York", location := "New York",
    lastFitbitSync := "Sync Not Set Up", emailRaw := some "jane@example.com",
    extractRaises := false }

/-- Same scenario with a non-empty extracted date-of-birth label. -/
def fenvWithDob : FinderEnv :=
  { fenvEmptyDob with dobExtracted := "Aug 28, 2003" }

/-- The `date_of_birth` field of a successful `find_patient` outcome. -/
def resultDob : Except PyErr (ModuleState × Option PatientData) → Option String
  | .ok (_, some p) => some p.date_of_birth
  | _ => none

/-- C7 counterexample: with an empty extracted label and caller input
"Jan 5, 1990", the returned `date_of_birth` is the raw input string, not the
normalized "1990-01-05" the claim requires (normalization would produce it). -/
theorem C7_dob_not_normalized_counterexample :
    resultDob (find_patient lenvOk fenvEmptyDob ⟨0, none⟩ "Jane Doe" "Jan 5, 1990") =
      some "Jan 5, 1990" ∧
    normalized_dob "Jan 5, 1990" = some "1990-01-05" ∧
    ("Jan 5, 1990" : String) ≠ "1990-01-05" := by
  decide

/-- C7 witness: both branches of the amended claim at concrete inputs. -/
theorem C7_dob_fallback_witness :
    (find_patient lenvOk fenvWithDob ⟨0, none⟩ "Jane Doe" "Jan 5, 1990" =
      .ok (⟨1, some 0⟩, some
        { patient_id := "13632834", name := "Jane Doe", email := "jane@example.com",
          phone_number := "611543543", group := "No Group",
          date_of_birth := "Aug 28, 2003", current_weight := none,
          current_height := none, location := "New York",
          timezone := "America/New_York", last_fitbit_sync := "Sync Not Set Up",
          client_since := "Feb 18, 2026" })) ∧
    ({ patient_id := "13632834", name := "Jane Doe", email := "jane@example.com",
       phone_number := "611543543", group := "No Group",
       date_of_birth := "Aug 28, 2003", current_weight := none,
       current_height := none, location := "New York",
       timezone := "America/New_York", last_fitbit_sync := "Sync Not Set Up",
       client_since := "Feb 18, 2026" } : PatientData).date_of_birth = "Aug 28, 2003" ∧
    (find_patient lenvOk fenvEmptyDob ⟨0, none⟩ "Jane Doe" "Jan 5, 1990" =
      .ok (⟨1, some 0⟩, some
        { patient_id := "13632834", name := "Jane Doe", email := "jane@example.com",
          phone_number := "611543543", group := "No Group",
          date_of_birth := "Jan 5, 1990", current_weight := none,
          current_height := none, location := "New York",
          timezone := "America/New_York", last_fitbit_sync := "Sync Not Set Up",
          client_since := "Feb 18, 2026" })) ∧
    ({ patient_id := "13632834", name := "Jane Doe", email := "jane@example.com",
       phone_number := "611543543", group := "No Group",
       date_of_birth := "Jan 5, 1990", current_weight := none,
       current_height := none, location := "New York",
       timezone := "America/New_York", last_fitbit_sync := "Sync Not Set Up",
       client_since := "Feb 18, 2026" } : PatientData).date_of_birth = "Jan 5, 1990" := by
  refine ⟨by decide, ?_, by decide, ?_⟩
  · exact (C7_dob_fallback lenvOk fenvWithDob ⟨0, none⟩ "Jane Doe" "Jan 5, 1990"
      ⟨1, some 0⟩ _ (by decide)).1 (by decide)
  · exact (C7_dob_fallback lenvOk fenvEmptyDob ⟨0, none⟩ "Jane Doe" "Jan 5, 1990"
      ⟨1, some 0⟩ _ (by decide)).2 (by decide)

/-! ### src/integration/healthie.py: create_appointment -/

/-- The UI interactions `create_appointment` performs, in source order. -/
inductive SchedAction where
  | searchPatient | openProfile | openApptDialog | selectType | pickTime
  | openStartDate | clickNextMonth | chooseDay | clickPrimary | toggleTabs
  | openAppointment
deriving Repr, DecidableEq

/-- The dictionary `create_appointment` returns
(src/integration/healthie.py:438). -/
structure ApptData where
  patient_phone : String
  meeting_link : String
  consultation_type : String
  consultation_duration : String
  patient_name : String
  appointment_channel : String
  appointment_date : String
  appointment_time : String
deriving Repr, DecidableEq

/-- How each UI step of the appointment dialog behaves and what the portal
shows, in the order the source performs the steps. -/
structure SchedEnv where
  searchRaises : Bool
  viewProfileRaises : Bool
  addApptRaises : Bool
  modalRaises : Bool
  typeSelectRaises : Bool
  timePickRaises : Bool
  startDateRaises : Bool
  nextMonthRaises : Bool
  chooseDayRaises : Bool
  flashCheckRaises : Bool
  flashVisible : Bool
  flashText : String
  primaryRaises : Bool
  confirmListRaises : Bool
  appointmentVisible : Bool
  openApptRaises : Bool
  meetingHref : Option String
deriving Repr, DecidableEq

/-- The steps of the `create_appointment` body from the time picker onward
(source lines 360-449), entered only once past-date validation has passed;
`t4` is the trace accumulated so far. -/
def create_appointment_booking (env : SchedEnv) (now appointment_datetime : PyDateTime)
    (date_str time_str : String) (t4 : List SchedAction) :
    Option ApptData × List SchedAction :=
  if env.timePickRaises then (none, t4)
  else
    let t5 := t4 ++ [SchedAction.pickTime]
    if env.startDateRaises then (none, t5)
    else
      let t6 := t5 ++ [SchedAction.openStartDate]
      if env.nextMonthRaises then (none, t6)
      else
        let t7 := t6 ++ List.replicate
          (calculate_diff_months now appointment_datetime).toNat
          SchedAction.clickNextMonth
        if env.chooseDayRaises then (none, t7)
        else
          let t8 := t7 ++ [SchedAction.chooseDay]
          if env.flashCheckRaises then (none, t8)
          else if env.flashVisible &&
              env.flashText == "You have another event scheduled at this time" then
            (none, t8)
          else
            let t9 := t8 ++ [SchedAction.clickPrimary]
            if env.primaryRaises then (none, t9)
            else if env.confirmListRaises then (none, t9 ++ [SchedAction.toggleTabs])
            else
              let t10 := t9 ++ [SchedAction.toggleTabs]
              if !env.appointmentVisible then (none, t10)
              else if env.openApptRaises then (none, t10 ++ [SchedAction.openAppointment])
              else
                let t11 := t10 ++ [SchedAction.openAppointment]
                match env.meetingHref with
                | none => (none, t11)
                | some href =>
                  (some { patient_phone := "phone_text",
                          meeting_link := "https://secure.gethealthie.com/" ++ href,
                          consultation_type := "Initial Consultation",
                          consultation_duration := "60 Minutes",
                          patient_name := "patient_name",
                          appointment_channel := "video call",
                          appointment_date := date_str,
                          appointment_time := time_str }, t11)

/-- The `try:` body of `create_appointment`
(src/integration/healthie.py:313-449), with the exception flattening of the
broad `except` (line 451) already applied: every raised step yields `None`.
Alongside the outcome it records the trace of UI actions performed, so that
"no dialog-submission attempt" is expressible (`clickPrimary` is appended
when the primary-button click is attempted). `convert_to_datetime` failure
(`ValueError` inside the `try`) also yields `None`. -/
def create_appointment (env : SchedEnv) (now : PyDateTime)
    (patient_id date_str time_str : String) : Option ApptData × List SchedAction :=
  if env.searchRaises then (none, [])
  else
    let t1 := [SchedAction.searchPatient]
    if env.viewProfileRaises then (none, t1)
    else
      let t2 := t1 ++ [SchedAction.openProfile]
      if env.addApptRaises then (none, t2)
      else
        let t3 := t2 ++ [SchedAction.openApptDialog]
        if env.modalRaises then (none, t3)
        else if env.typeSelectRaises then (none, t3)
        else
          let t4 := t3 ++ [SchedAction.selectType]
          match convert_to_datetime date_str time_str with
          | none => (none, t4)
          | some appointment_datetime =>
            if appointment_datetime.ltb now then (none, t4)
            else create_appointment_booking env now appointment_datetime date_str time_str t4

/-- `create_appointment` including the leading `login_to_healthie()` call,
which sits before the `try` and therefore propagates its exceptions. -/
def create_appointment_full (lenv : LoginEnv) (senv : SchedEnv) (s : ModuleState)
    (now : PyDateTime) (patient_id date_str time_str : String) :
    Except PyErr (ModuleState × Option ApptData) :=
  match login_to_healthie lenv s with
  | .error e => .error e
  | .ok (s', _) => .ok (s', (create_appointment senv now patient_id date_str time_str).1)

/-- C1: whenever the requested date+time parses to an instant strictly before
`now` (the time captured at validation), `create_appointment` returns `None`
and the dialog's primary submit control is never clicked. -/
theorem C1_past_date_rejected (env : SchedEnv) (now dt : PyDateTime)
    (patient_id date_str time_str : String)
    (hparse : convert_to_datetime date_str time_str = some dt)
    (hpast : dt.ltb now = true) :
    (create_appointment env now patient_id date_str time_str).1 = none ∧
    SchedAction.clickPrimary ∉ (create_appointment env now patient_id date_str time_str).2 := by
  constructor <;>
    (unfold create_appointment
     split_ifs <;> simp [hparse, hpast])

/-- A scheduler environment in which every UI step succeeds and the portal
shows no conflict. -/
def senvOk : SchedEnv :=
  { searchRaises := false, viewProfileRaises := false, addApptRaises := false,
    modalRaises := false, typeSelectRaises := false, timePickRaises := false,
    startDateRaises := false, nextMonthRaises := false, chooseDayRaises := false,
    flashCheckRaises := false, flashVisible := false, flashText := "",
    primaryRaises := false, confirmListRaises := false, appointmentVisible := true,
    openApptRaises := false, meetingHref := some "appointments/67890" }

/-- C1 witness: a request for 2020-01-01 10:00 AM with `now` = 2026-01-15
12:00 parses, is in the past, and is rejected without a submit click. -/
theorem C1_past_date_rejected_witness :
    convert_to_datetime "2020-01-01" "10:00 AM" = some ⟨2020, 1, 1, 10, 0⟩ ∧
    PyDateTime.ltb ⟨2020, 1, 1, 10, 0⟩ ⟨2026, 1, 15, 12, 0⟩ = true ∧
    ((create_appointment senvOk ⟨2026, 1, 15, 12, 0⟩ "13632834" "2020-01-01" "10:00 AM").1 = none ∧
     SchedAction.clickPrimary ∉
       (create_appointment senvOk ⟨2026, 1, 15, 12, 0⟩ "13632834" "2020-01-01" "10:00 AM").2) := by
  refine ⟨by decide, by decide, ?_⟩
  exact C1_past_date_rejected senvOk ⟨2026, 1, 15, 12, 0⟩ ⟨2020, 1, 1, 10, 0⟩
    "13632834" "2020-01-01" "10:00 AM" (by decide) (by decide)

/-! ### src/adapters/pipecat/healthie.py: the caller-facing actions -/

/-- The payload delivered through `params.result_callback` /
`_respond_with_error`: a success payload with its data, or
`{"success": False, "error": msg, "error_code": code}`. -/
inductive ActionResult where
  | patientFound (id name email phone : String)
  | appointmentCreated (appointment : ApptData)
  | failure (error : String) (error_code : Option String)
deriving Repr, DecidableEq

/-- `_build_error_payload` (src/adapters/pipecat/healthie.py:34). -/
def _build_error_payload (message : String) (code : Option String) : ActionResult :=
  .failure message code

/-- `find_patient_direct` (src/adapters/pipecat/healthie.py:79). Only
`ValueError` is caught (line 116); any other exception raised by
`healthie.find_patient` — which can only come from session acquisition —
propagates to the caller as `.error`. -/
def find_patient_direct (lenv : LoginEnv) (fenv : FinderEnv) (s : ModuleState)
    (patient_name patient_date_of_birth : String) : Except PyErr ActionResult :=
  match find_patient lenv fenv s patient_name patient_date_of_birth with
  | .error (.valueError m) => .ok (_build_error_payload m (some "invalid_input"))
  | .error (.otherError m) => .error (.otherError m)
  | .ok (_, none) =>
    .ok (_build_error_payload "No patient found for the given name and date of birth."
      (some "patient_not_found"))
  | .ok (_, some p) =>
    if p.patient_id = "" then
      .ok (_build_error_payload "Patient record is missing an identifier; cannot find a patient."
        (some "patient_id_not_found"))
    else .ok (.patientFound p.patient_id p.name p.email p.phone_number)

/-- `create_appointment_direct` (src/adapters/pipecat/healthie.py:120):
`ValueError` → `invalid_input`, any other exception → `unexpected_error`,
`None` → `appointment_creation_failed`; never re-raises. -/
def create_appointment_direct (lenv : LoginEnv) (senv : SchedEnv) (s : ModuleState)
    (now : PyDateTime) (patient_id appointment_date appointment_time : String) :
    ActionResult :=
  match create_appointment_full lenv senv s now patient_id appointment_date appointment_time with
  | .error (.valueError m) => _build_error_payload m (some "invalid_input")
  | .error (.otherError m) => _build_error_payload m (some "unexpected_error")
  | .ok (_, none) =>
    _build_error_payload "Healthie rejected the appointment request; please try another slot."
      (some "appointment_creation_failed")
  | .ok (_, some appt) => .appointmentCreated appt

/-- A failure payload carries one of the five recognized error codes;
success payloads are unconstrained. -/
def resultCodeOk : ActionResult → Bool
  | .failure _ (some c) =>
    c == "invalid_input" || c == "patient_not_found" || c == "patient_id_not_found" ||
      c == "appointment_creation_failed" || c == "unexpected_error"
  | .failure _ none => false
  | _ => true

lemma find_patient_error (lenv : LoginEnv) (fenv : FinderEnv) (s : ModuleState)
    (name dob : String) (e : PyErr)
    (h : find_patient lenv fenv s name dob = .error e) :
    login_to_healthie lenv s = .error e := by
  unfold find_patient at h
  cases hl : login_to_healthie lenv s with
  | error e2 =>
    simp only [hl] at h
    rw [Except.error.injEq] at h
    rw [h]
  | ok pr =>
    obtain ⟨s2, pg⟩ := pr
    simp only [hl] at h
    cases hb : find_patient_body fenv name dob <;> simp only [hb] at h <;> cases h

/-- C4 (amended): `create_appointment_direct` always delivers a structured
payload whose failure code is one of the five recognized codes;
`find_patient_direct` does too whenever it delivers a payload, but a
non-`ValueError` session-acquisition failure propagates to the caller as a
raw exception (only `ValueError` is caught). -/
theorem C4_structured_payloads :
    (∀ (lenv : LoginEnv) (senv : SchedEnv) (s : ModuleState) (now : PyDateTime)
       (pid d t : String),
      resultCodeOk (create_appointment_direct lenv senv s now pid d t) = true) ∧
    (∀ (lenv : LoginEnv) (fenv : FinderEnv) (s : ModuleState) (name dob : String)
       (r : ActionResult),
      find_patient_direct lenv fenv s name dob = .ok r → resultCodeOk r = true) ∧
    (∀ (lenv : LoginEnv) (fenv : FinderEnv) (s : ModuleState) (name dob : String)
       (e : PyErr),
      find_patient_direct lenv fenv s name dob = .error e →
        login_to_healthie lenv s = .error e) := by
  refine ⟨?_, ?_, ?_⟩
  · intro lenv senv s now pid d t
    unfold create_appointment_direct
    cases h : create_appointment_full lenv senv s now pid d t with
    | error e => cases e <;> simp [resultCodeOk, _build_error_payload]
    | ok pr =>
      obtain ⟨s2, r⟩ := pr
      cases r <;> simp [resultCodeOk, _build_error_payload]
  · intro lenv fenv s name dob r h
    unfold find_patient_direct at h
    cases hf : find_patient lenv fenv s name dob with
    | error e =>
      cases e with
      | valueError m =>
        simp only [hf] at h
        rw [Except.ok.injEq] at h
        subst h
        simp [resultCodeOk, _build_error_payload]
      | otherError m => simp only [hf] at h; cases h
    | ok pr =>
      obtain ⟨s2, p?⟩ := pr
      cases p? with
      | none =>
        simp only [hf] at h
        rw [Except.ok.injEq] at h
        subst h
        simp [resultCodeOk, _build_error_payload]
      | some p =>
        simp only [hf] at h
        split_ifs at h <;>
          (rw [Except.ok.injEq] at h; subst h; simp [resultCodeOk, _build_error_payload])
  · intro lenv fenv s name dob e h
    unfold find_patient_direct at h
    cases hf : find_patient lenv fenv s name dob with
    | error e2 =>
      cases e2 with
      | valueError m => simp only [hf] at h; cases h
      | otherError m =>
        simp only [hf] at h
        rw [Except.error.injEq] at h
        rw [← h]
        exact find_patient_error lenv fenv s name dob _ hf
    | ok pr =>
      obtain ⟨s2, p?⟩ := pr
      cases p? with
      | none => simp only [hf] at h; cases h
      | some p =>
        simp only [hf] at h
        split_ifs at h <;> cases h

/-- A login environment in which credentials are present but the login
protocol fails its final check ("still on sign-in page"), raising a
non-`ValueError` exception. -/
def lenvFailLogin : LoginEnv :=
  { hasEmail := true, hasPassword := true, uiRaises := false,
    continueWaitTimesOut := false, continueIsVisible := false,
    otpResult := .ok "842913", otpFillRaises := false, stillOnSignIn := true }

/-- C4 counterexample: when session acquisition fails with the login-failure
exception, `find_patient_direct` lets the raw exception reach the caller
instead of delivering a structured payload. -/
theorem C4_raw_exception_counterexample :
    find_patient_direct lenvFailLogin fenvEmptyDob ⟨0, none⟩ "Jane Doe" "1990-01-05" =
      .error (.otherError "Login may have failed - still on sign-in page") := by
  decide

/-- C4 witness: concrete instantiations of all three parts of the amended
claim. -/
theorem C4_structured_payloads_witness :
    resultCodeOk (create_appointment_direct lenvOk senvOk ⟨0, none⟩
      ⟨2026, 1, 15, 12, 0⟩ "13632834" "2026-02-28" "4:00 PM") = true ∧
    resultCodeOk (.patientFound "13632834" "Jane Doe" "jane@example.com" "611543543") = true ∧
    login_to_healthie lenvFailLogin ⟨0, none⟩ =
      .error (.otherError "Login may have failed - still on sign-in page") := by
  refine ⟨?_, ?_, ?_⟩
  · exact C4_structured_payloads.1 lenvOk senvOk ⟨0, none⟩ ⟨2026, 1, 15, 12, 0⟩
      "13632834" "2026-02-28" "4:00 PM"
  · exact C4_structured_payloads.2.1 lenvOk fenvEmptyDob ⟨0, none⟩ "Jane Doe" "1990-01-05"
      (.patientFound "13632834" "Jane Doe" "jane@example.com" "611543543") (by decide)
  · exact C4_structured_payloads.2.2 lenvFailLogin fenvEmptyDob ⟨0, none⟩ "Jane Doe"
      "1990-01-05" (.otherError "Login may have failed - still on sign-in page") (by decide)
